import Mathlib

/-!
Verification of the Cortex authorization/session bridge.

The development shallowly embeds the OAuth 2.1 / PKCE bridge and the
session-aware MCP transport described in the repository.  The server
implementation files named by the repository (oauth_simple_new.py,
mcp_claude_simple.py) are not shipped in this tree; the definitions below
follow the specification together with the code excerpts quoted in
docs/new/MCP_OAUTH_COMPLETE_DOCUMENTATION.md, which is the closest source
material present.  The two ProtectedRoute React components are embedded
directly from their TypeScript sources.
-/

namespace Cortex

/-- Error taxonomy of the bridge, spec section 7. -/
inductive OAuthError where
  | invalidClient
  | invalidRequest
  | sessionNotFound
  | invalidGrant
  | principalNotFound
  | unauthorized
  deriving DecidableEq, Repr

/-- A row of the users table.  The documentation gives the schema: id is the
internal primary-key UUID, user_id is the external (Supabase) UUID. -/
structure UserRecord where
  id : String
  user_id : String
  email : String
  deriving DecidableEq, Repr

/-- A pending authorization / bridge session stored in auth_sessions, keyed by
an opaque oauth_session id.  Fields follow the PendingAuthorization record of
the spec. -/
structure AuthSession where
  client_id : String
  redirect_uri : String
  code_challenge : String
  state : Option String
  scope : String
  created_at : Nat
  deriving DecidableEq, Repr

/-- An issued authorization code record, keyed by the opaque code string.
Fields follow the AuthorizationCode record of the spec and the
auth_sessions[auth_code] payload quoted in the documentation (internal
user_id plus supabase_user_id kept for reference). -/
structure AuthCode where
  user_id : String
  supabase_user_id : String
  email : String
  client_id : String
  code_challenge : String
  scope : String
  expires_at : Nat
  consumed : Bool
  deriving DecidableEq, Repr

/-- The JWT access-token payload given in the documentation: sub carries the
internal user id, together with email, client, scope and expiry. -/
structure BearerToken where
  sub : String
  email : String
  client : String
  scope : String
  exp : Nat
  deriving DecidableEq, Repr

/-- The server-side stores: registered client ids, pending bridge sessions and
issued authorization codes.  All keyed records live here (spec section 3,
ownership). -/
structure OAuthState where
  clients : List String
  auth_sessions : List (String × AuthSession)
  auth_codes : List (String × AuthCode)
  deriving DecidableEq, Repr

/-- Query parameters of the authorization endpoint, spec section 6; the
optional oauth_session is the bridge-session id carried across the
identity-provider redirect. -/
structure AuthorizeParams where
  client_id : String
  redirect_uri : String
  code_challenge : String
  state : Option String
  scope : String
  oauth_session : Option String
  deriving DecidableEq, Repr

/-- Observable result of one authorization request: a self-contained login
page carrying the bridge-session id, a redirect back to the agent carrying
the code and the echoed state, or a structured failure. -/
inductive AuthorizeOutcome where
  | loginPage (oauth_session : String)
  | redirect (uri : String) (code : String) (state : Option String)
  | failure (e : OAuthError)
  deriving DecidableEq, Repr

/-- The internal-user lookup quoted in the documentation:
db.query(User).filter(User.user_id == str(current_user.id)).first(). -/
def findByUserId (users : List UserRecord) (ext : String) : Option UserRecord :=
  users.find? (fun u => u.user_id == ext)

/-- Modelled from the spec: the Identity Resolver, Resolve(external id).
The backing query is the read-only lookup quoted in the documentation; the
error path (PrincipalNotFound when no internal record exists) is the spec's,
since the surrounding server file is not in this tree.  The function returns
the (unchanged) users table alongside the result to make the absence of side
effects explicit. -/
def resolve (users : List UserRecord) (ext : String) :
    Except OAuthError String × List UserRecord :=
  match findByUserId users ext with
  | some u => (Except.ok u.id, users)
  | none => (Except.error OAuthError.principalNotFound, users)

/-- The documentation's logs show unknown Claude clients being auto-registered
(Auto-registered Claude client: claude-OiAex4vGSSA); detection is modelled by
the claude prefix of the logged client ids. -/
def isClaudeClient (cid : String) : Bool :=
  "claude".data.isPrefixOf cid.data

/-- The bridge session stored at authorization start records the request
parameters verbatim, including the optional state. -/
def sessionFromParams (p : AuthorizeParams) (now : Nat) : AuthSession :=
  { client_id := p.client_id
    redirect_uri := p.redirect_uri
    code_challenge := p.code_challenge
    state := p.state
    scope := p.scope
    created_at := now }

/-- The authorization-code record created at code issuance: the internal user
id from the resolver, the external id kept for reference, and the session's
challenge, client and scope (documentation, user UUID mapping fix). -/
def codeFromSession (sess : AuthSession) (internalId extId email : String)
    (codeExp : Nat) : AuthCode :=
  { user_id := internalId
    supabase_user_id := extId
    email := email
    client_id := sess.client_id
    code_challenge := sess.code_challenge
    scope := sess.scope
    expires_at := codeExp
    consumed := false }

/-- Modelled from the spec: the authorization endpoint, following the control
flow quoted in the documentation (the full oauth_simple_new.py is not in this
tree).  On a post-authentication callback (oauth_session present) the stored
session is restored by its id exactly as in the quoted snippet - membership in
auth_sessions is the only check, no expiry test - and ambient authentication
evidence is consulted only there; on an initial request current_user is
forced to none (self-contained login) and a bridge session is created, with
unknown Claude clients auto-registered as the production logs show and other
unknown clients rejected with InvalidClient per the spec. -/
def authorize (users : List UserRecord) (ambient : Option String)
    (p : AuthorizeParams) (st : OAuthState) (now : Nat)
    (freshSessionId freshCode : String) (codeExp : Nat) :
    AuthorizeOutcome × OAuthState :=
  match p.oauth_session with
  | some sid =>
    match st.auth_sessions.lookup sid with
    | none => (AuthorizeOutcome.failure OAuthError.sessionNotFound, st)
    | some sess =>
      match ambient with
      | none => (AuthorizeOutcome.loginPage sid, st)
      | some ext =>
        match findByUserId users ext with
        | none => (AuthorizeOutcome.failure OAuthError.principalNotFound, st)
        | some u =>
          (AuthorizeOutcome.redirect sess.redirect_uri freshCode sess.state,
            { st with
                auth_codes :=
                  (freshCode, codeFromSession sess u.id ext u.email codeExp)
                    :: st.auth_codes
                auth_sessions :=
                  st.auth_sessions.filter (fun q => q.1 != sid) })
  | none =>
    if st.clients.contains p.client_id then
      (AuthorizeOutcome.loginPage freshSessionId,
        { st with
            auth_sessions :=
              (freshSessionId, sessionFromParams p now) :: st.auth_sessions })
    else if isClaudeClient p.client_id then
      (AuthorizeOutcome.loginPage freshSessionId,
        { st with
            clients := p.client_id :: st.clients
            auth_sessions :=
              (freshSessionId, sessionFromParams p now) :: st.auth_sessions })
    else (AuthorizeOutcome.failure OAuthError.invalidClient, st)

/-- The token minted on successful redemption: sub is the code record's
internal user id (documentation, JWT token payload fixed). -/
def mintToken (ac : AuthCode) (tokenExp : Nat) : BearerToken :=
  { sub := ac.user_id
    email := ac.email
    client := ac.client_id
    scope := ac.scope
    exp := tokenExp }

/-- Mark one stored code consumed, leaving every other entry unchanged. -/
def markConsumed : List (String × AuthCode) → String → List (String × AuthCode)
  | [], _ => []
  | (k, v) :: qs, code =>
    if k == code then (k, { v with consumed := true }) :: markConsumed qs code
    else (k, v) :: markConsumed qs code

/-- Modelled from the spec: Redeem(code, code_verifier) of the Token Issuer
(the token endpoint's body is not in this tree).  One invocation is a single
atomic check-and-set on the code store: lookup, consumed flag, expiry and
challenge check happen in the same step that marks the code consumed, so a
concurrent execution of several redemptions is an interleaving of these
atomic steps.  The hash of the verifier is a parameter (SHA-256 in the
implementation).  Every validation failure is the undifferentiated
InvalidGrant. -/
def redeem (hash : String → String) (now tokenExp : Nat)
    (codes : List (String × AuthCode)) (code verifier : String) :
    Except OAuthError BearerToken × List (String × AuthCode) :=
  match codes.lookup code with
  | none => (Except.error OAuthError.invalidGrant, codes)
  | some ac =>
    if ac.consumed then (Except.error OAuthError.invalidGrant, codes)
    else if ac.expires_at ≤ now then (Except.error OAuthError.invalidGrant, codes)
    else if hash verifier == ac.code_challenge then
      (Except.ok (mintToken ac tokenExp), markConsumed codes code)
    else (Except.error OAuthError.invalidGrant, codes)

/-- A transport-level connection session, documentation active_sessions
payload: user id, client, creation and last-activity timestamps. -/
structure SessionInfo where
  user_id : String
  client : String
  created_at : Nat
  last_activity : Nat
  deriving DecidableEq, Repr

/-- One JSON-RPC response of the transport together with the optional
mcp-session-id response header. -/
structure MCPResult where
  body : String
  sessionHeader : Option String
  deriving DecidableEq, Repr

/-- process_single_message after the session-header fix quoted in the
documentation: the message is handled by the existing MCP logic
(handleRequestLogic, abstracted as a parameter), and when the method is
initialize and a response exists, a fresh connection session is stored and
the response carries its id in the mcp-session-id header.  Authentication
has already succeeded when this function runs (the endpoint's user
dependency), so the authenticated user's id and client are inputs. -/
def process_single_message (handleRequestLogic : String → Option String)
    (user_id client : String) (now : Nat) (newSessionId : String)
    (active_sessions : List (String × SessionInfo)) (method : String) :
    Option MCPResult × List (String × SessionInfo) :=
  match handleRequestLogic method with
  | none => (none, active_sessions)
  | some response =>
    if method == "initialize" then
      (some { body := response, sessionHeader := some newSessionId },
        (newSessionId,
          { user_id := user_id, client := client,
            created_at := now, last_activity := now }) :: active_sessions)
    else
      (some { body := response, sessionHeader := none }, active_sessions)

/-- Side effects a React component can issue from its effect hook. -/
inductive Effect where
  | redirect (path : String)
  deriving DecidableEq, Repr

/-- What a component renders: the wrapped children, a loading spinner, or
nothing (null). -/
inductive Rendered (α : Type) where
  | node (children : α)
  | loader
  | empty
  deriving DecidableEq, Repr

/-- Client-side authentication state from the auth context: the signed-in
user, if any, and the loading flag. -/
structure AuthContextState where
  user : Option String
  isLoading : Bool
  deriving DecidableEq, Repr

/-- ProtectedRoute from src/unnamed/part_002: the body is a single
return of the children fragment - no hook is consulted, no effect runs. -/
def ProtectedRouteNuclear {α : Type} (children : α) (_auth : AuthContextState) :
    List Effect × Rendered α :=
  ([], Rendered.node children)

/-- Whether the pattern occurs as a contiguous substring of the character
list, as the JavaScript String.includes check. -/
def containsSub (pat : List Char) : List Char → Bool
  | [] => pat.isEmpty
  | c :: cs => pat.isPrefixOf (c :: cs) || containsSub pat cs

/-- window.location.search.includes with the admin bypass marker, from
src/openmemory/ui/components/ProtectedRoute.tsx line 18. -/
def includesAdminTrue (search : String) : Bool :=
  containsSub "admin=true".data search.data

/-- ProtectedRoute from src/openmemory/ui/components/ProtectedRoute.tsx:
isAdminBypass is decided by the window check and the query string alone; the
effect hook redirects to /auth when not loading, no user and no bypass; the
render shows the spinner while loading without bypass, null when signed out
without bypass, and otherwise the children. -/
def ProtectedRouteUI {α : Type} (hasWindow : Bool) (search : String)
    (auth : AuthContextState) (children : α) : List Effect × Rendered α :=
  let isAdminBypass := hasWindow && includesAdminTrue search
  let effects :=
    if !auth.isLoading && auth.user.isNone && !isAdminBypass then
      [Effect.redirect "/auth"]
    else []
  let rendered :=
    if auth.isLoading && !isAdminBypass then Rendered.loader
    else if auth.user.isNone && !isAdminBypass then Rendered.empty
    else Rendered.node children
  (effects, rendered)

/-! Concrete records used by the closed witness and counterexample theorems;
they follow Scenario A of the spec (external id ext-42 mapped to internal id
int-7, client agent-1). -/

/-- Users table with the Scenario A mapping. -/
def usersScenA : List UserRecord :=
  [{ id := "int-7", user_id := "ext-42", email := "user@example.com" }]

/-- An issued, unconsumed authorization code for Scenario A / B. -/
def acScenB : AuthCode :=
  { user_id := "int-7"
    supabase_user_id := "ext-42"
    email := "user@example.com"
    client_id := "agent-1"
    code_challenge := "chal"
    scope := "read write"
    expires_at := 100
    consumed := false }

/-- Looking up a code after markConsumed finds the same record with the
consumed flag set; every failure of the lookup is preserved. -/
theorem lookup_markConsumed (codes : List (String × AuthCode)) (code : String)
    (ac : AuthCode) (h : codes.lookup code = some ac) :
    (markConsumed codes code).lookup code = some { ac with consumed := true } := by
  induction codes with
  | nil => simp at h
  | cons q qs ih =>
    obtain ⟨k, v⟩ := q
    rw [List.lookup_cons] at h
    by_cases hk : code = k
    · have hb : (code == k) = true := by simp [hk]
      have hkb : (k == code) = true := by simp [hk.symm]
      rw [hb] at h
      have hv : v = ac := by exact Option.some.inj h
      subst hv
      simp only [markConsumed, hkb, if_true, List.lookup_cons, hb]
    · have hb : (code == k) = false := by simp [hk]
      have hkb : (k == code) = false := by simp [Ne.symm hk]
      rw [hb] at h
      simp only [markConsumed, hkb, Bool.false_eq_true, if_false, List.lookup_cons, hb]
      exact ih h

/-- Claim C1: for every authorization code issued with a code challenge and
every matching verifier, the first Redeem with that pair succeeds, and every
subsequent Redeem with the same code - any verifier, any time - fails with
InvalidGrant.  Each Redeem is a single atomic check-and-set step, so a
concurrent pair of redemptions is one of the two interleavings this theorem
covers. -/
theorem redeem_exactly_once (hash : String → String)
    (now tokenExp now2 tokenExp2 : Nat)
    (codes : List (String × AuthCode)) (code verifier verifier2 : String)
    (ac : AuthCode)
    (hlook : codes.lookup code = some ac) (hcons : ac.consumed = false)
    (hexp : now < ac.expires_at) (hver : hash verifier = ac.code_challenge) :
    (redeem hash now tokenExp codes code verifier).1
        = Except.ok (mintToken ac tokenExp) ∧
      (redeem hash now2 tokenExp2
          (redeem hash now tokenExp codes code verifier).2 code verifier2).1
        = Except.error OAuthError.invalidGrant := by
  have hle : ¬ ac.expires_at ≤ now := Nat.not_le.mpr hexp
  have hv : (hash verifier == ac.code_challenge) = true := by simp [hver]
  constructor
  · simp [redeem, hlook, hcons, hle, hv]
  · have h2 : (redeem hash now tokenExp codes code verifier).2
        = markConsumed codes code := by
      simp [redeem, hlook, hcons, hle, hv]
    rw [h2]
    have h3 := lookup_markConsumed codes code ac hlook
    simp [redeem, h3]

/-- Claim C1 witness: the Scenario B run at a concrete code and verifier. -/
theorem redeem_exactly_once_witness :
    ([("code-1", acScenB)] : List (String × AuthCode)).lookup "code-1"
        = some acScenB ∧
      acScenB.consumed = false ∧ 0 < acScenB.expires_at ∧
      id "chal" = acScenB.code_challenge ∧
      ((redeem id 0 50 [("code-1", acScenB)] "code-1" "chal").1
          = Except.ok (mintToken acScenB 50) ∧
        (redeem id 7 60 (redeem id 0 50 [("code-1", acScenB)] "code-1" "chal").2
            "code-1" "chal").1 = Except.error OAuthError.invalidGrant) :=
  ⟨rfl, rfl, by decide, rfl,
    redeem_exactly_once id 0 50 7 60 [("code-1", acScenB)] "code-1" "chal" "chal"
      acScenB rfl rfl (by decide) rfl⟩

/-- A registered-client authorization request for Scenario A, started
without a bridge-session id. -/
def paramsScenA : AuthorizeParams :=
  { client_id := "agent-1"
    redirect_uri := "https://claude.ai/api/mcp/auth_callback"
    code_challenge := "chal"
    state := some "xyz"
    scope := "read write"
    oauth_session := none }

/-- A pending bridge session for Scenario A. -/
def sessScenA : AuthSession := sessionFromParams paramsScenA 0

/-- A store holding the registered Scenario A client and its pending
session. -/
def stScenA : OAuthState :=
  { clients := ["agent-1"]
    auth_sessions := [("sess-1", sessScenA)]
    auth_codes := [] }

/-- Claim C2: every successful redemption of a code issued on the
post-authentication callback yields a token whose sub field is the internal
principal id that the users-table lookup returned for the external id -
together with the client id, scope and expiry - never the external id
itself. -/
theorem token_embeds_internal_principal
    (users : List UserRecord) (u : UserRecord) (ext : String)
    (p : AuthorizeParams) (st : OAuthState) (sess : AuthSession)
    (hash : String → String) (verifier : String)
    (sid freshSessionId freshCode : String) (nowA codeExp now tokenExp : Nat)
    (hp : p.oauth_session = some sid)
    (hsess : st.auth_sessions.lookup sid = some sess)
    (hfind : findByUserId users ext = some u)
    (hver : hash verifier = sess.code_challenge)
    (hnow : now < codeExp) :
    (redeem hash now tokenExp
        (authorize users (some ext) p st nowA freshSessionId freshCode codeExp).2.auth_codes
        freshCode verifier).1
      = Except.ok
          { sub := u.id, email := u.email, client := sess.client_id,
            scope := sess.scope, exp := tokenExp } := by
  have hle : ¬ codeExp ≤ now := Nat.not_le.mpr hnow
  have hv : (hash verifier == sess.code_challenge) = true := by simp [hver]
  simp [authorize, hp, hsess, hfind, redeem, List.lookup_cons,
    codeFromSession, mintToken, hle, hv]

/-- Claim C2 witness: Scenario A at concrete values; external id ext-42 is
mapped to internal id int-7 and the minted token embeds int-7, not ext-42. -/
theorem token_embeds_internal_principal_witness :
    ({ paramsScenA with oauth_session := some "sess-1" } :
        AuthorizeParams).oauth_session = some "sess-1" ∧
      stScenA.auth_sessions.lookup "sess-1" = some sessScenA ∧
      findByUserId usersScenA "ext-42"
        = some { id := "int-7", user_id := "ext-42", email := "user@example.com" } ∧
      id "chal" = sessScenA.code_challenge ∧ (0 : Nat) < 600 ∧
      (redeem id 0 900
          (authorize usersScenA (some "ext-42")
            { paramsScenA with oauth_session := some "sess-1" }
            stScenA 5 "sess-2" "code-1" 600).2.auth_codes
          "code-1" "chal").1
        = Except.ok
            { sub := "int-7", email := "user@example.com", client := "agent-1",
              scope := "read write", exp := 900 } :=
  ⟨rfl, by decide, by decide, rfl, by decide,
    token_embeds_internal_principal usersScenA
      { id := "int-7", user_id := "ext-42", email := "user@example.com" }
      "ext-42" { paramsScenA with oauth_session := some "sess-1" }
      stScenA sessScenA id "chal" "sess-1" "sess-2" "code-1" 5 600 0 900
      rfl (by decide) (by decide) rfl (by decide)⟩

/-- Claim C3: once the bearer token has been accepted, an initialize request
whose handling produced a response creates a connection session and the
response carries that session's id in the mcp-session-id header; the header
is never omitted. -/
theorem initialize_returns_session_id
    (handleRequestLogic : String → Option String) (user_id client : String)
    (now : Nat) (newSessionId : String)
    (active_sessions : List (String × SessionInfo)) (r : String)
    (hr : handleRequestLogic "initialize" = some r) :
    (process_single_message handleRequestLogic user_id client now newSessionId
        active_sessions "initialize").1
        = some { body := r, sessionHeader := some newSessionId } ∧
      (process_single_message handleRequestLogic user_id client now newSessionId
          active_sessions "initialize").2.lookup newSessionId
        = some { user_id := user_id, client := client,
                 created_at := now, last_activity := now } := by
  constructor <;> simp [process_single_message, hr, List.lookup_cons]

/-- Claim C3 witness: a concrete initialize request. -/
theorem initialize_returns_session_id_witness :
    (fun m => if m == "initialize" then some "init-result" else none) "initialize"
        = some "init-result" ∧
      (process_single_message
          (fun m => if m == "initialize" then some "init-result" else none)
          "int-7" "claude" 3 "mcp-session-abc" [] "initialize").1
        = some { body := "init-result", sessionHeader := some "mcp-session-abc" } ∧
      (process_single_message
          (fun m => if m == "initialize" then some "init-result" else none)
          "int-7" "claude" 3 "mcp-session-abc" [] "initialize").2.lookup
          "mcp-session-abc"
        = some { user_id := "int-7", client := "claude",
                 created_at := 3, last_activity := 3 } :=
  ⟨rfl,
    (initialize_returns_session_id
      (fun m => if m == "initialize" then some "init-result" else none)
      "int-7" "claude" 3 "mcp-session-abc" [] "init-result" rfl).1,
    (initialize_returns_session_id
      (fun m => if m == "initialize" then some "init-result" else none)
      "int-7" "claude" 3 "mcp-session-abc" [] "init-result" rfl).2⟩

/-- Claim C4: an authorization request in state START (no bridge-session id
presented) produces the same outcome and the same store for every value of
the ambient authentication evidence - cookies or prior sessions are never
consulted on the initial request. -/
theorem start_ignores_ambient_evidence
    (users : List UserRecord) (ambient1 ambient2 : Option String)
    (p : AuthorizeParams) (st : OAuthState) (now : Nat)
    (freshSessionId freshCode : String) (codeExp : Nat)
    (hp : p.oauth_session = none) :
    authorize users ambient1 p st now freshSessionId freshCode codeExp
      = authorize users ambient2 p st now freshSessionId freshCode codeExp := by
  simp only [authorize, hp]

/-- Claim C4 witness: the initial Scenario A request answers identically with
no ambient user and with an ambient signed-in user. -/
theorem start_ignores_ambient_evidence_witness :
    paramsScenA.oauth_session = none ∧
      authorize usersScenA none paramsScenA stScenA 0 "sess-9" "code-9" 600
        = authorize usersScenA (some "ext-42") paramsScenA stScenA 0 "sess-9"
            "code-9" 600 :=
  ⟨rfl,
    start_ignores_ambient_evidence usersScenA none (some "ext-42") paramsScenA
      stScenA 0 "sess-9" "code-9" 600 rfl⟩

/-- The authorization request of an unregistered Claude client, with the
client id taken from the production logs quoted in the documentation. -/
def claudeParams : AuthorizeParams :=
  { client_id := "claude-OiAex4vGSSA"
    redirect_uri := "https://claude.ai/api/mcp/auth_callback"
    code_challenge := "chal"
    state := some "xyz"
    scope := "read write"
    oauth_session := none }

/-- A store with no registered clients and no sessions. -/
def emptyState : OAuthState :=
  { clients := [], auth_sessions := [], auth_codes := [] }

/-- Claim C5 counterexample: the never-registered client id
claude-OiAex4vGSSA does not fail with InvalidClient - it is auto-registered,
the flow proceeds to the login page and a bridge session is created, so the
session store changes. -/
theorem unknown_claude_client_auto_registered :
    claudeParams.client_id ∉ emptyState.clients ∧
      (authorize [] none claudeParams emptyState 0 "sess-1" "code-1" 600).1
        = AuthorizeOutcome.loginPage "sess-1" ∧
      (authorize [] none claudeParams emptyState 0 "sess-1" "code-1" 600).1
        ≠ AuthorizeOutcome.failure OAuthError.invalidClient ∧
      (authorize [] none claudeParams emptyState 0 "sess-1" "code-1" 600).2.auth_sessions
        = [("sess-1", sessionFromParams claudeParams 0)] := by
  refine ⟨by decide, by decide, by decide, by decide⟩

/-- Claim C5 amended: an authorization request whose client id was never
registered and is not recognized as a Claude client fails with InvalidClient
and leaves the store unchanged; unknown Claude clients are instead
auto-registered and the flow proceeds. -/
theorem unknown_client_invalid_unless_claude
    (users : List UserRecord) (ambient : Option String) (p : AuthorizeParams)
    (st : OAuthState) (now : Nat) (freshSessionId freshCode : String)
    (codeExp : Nat)
    (hp : p.oauth_session = none)
    (hreg : p.client_id ∉ st.clients)
    (hclaude : isClaudeClient p.client_id = false) :
    authorize users ambient p st now freshSessionId freshCode codeExp
      = (AuthorizeOutcome.failure OAuthError.invalidClient, st) := by
  simp [authorize, hp, hreg, hclaude]

/-- Claim C5 amended witness: an unregistered non-Claude client id at
concrete values. -/
theorem unknown_client_invalid_unless_claude_witness :
    ({ paramsScenA with client_id := "rogue-client" } :
        AuthorizeParams).oauth_session = none ∧
      ("rogue-client" : String) ∉ stScenA.clients ∧
      isClaudeClient "rogue-client" = false ∧
      authorize usersScenA none { paramsScenA with client_id := "rogue-client" }
          stScenA 0 "sess-9" "code-9" 600
        = (AuthorizeOutcome.failure OAuthError.invalidClient, stScenA) :=
  ⟨rfl, by decide, by decide,
    unknown_client_invalid_unless_claude usersScenA none
      { paramsScenA with client_id := "rogue-client" } stScenA 0 "sess-9"
      "code-9" 600 rfl (by decide) (by decide)⟩

/-- The nominal short TTL of pending authorizations, spec section 5:
minutes. -/
def SESSION_TTL : Nat := 600

/-- A bridge session created at time zero and never completed. -/
def staleSession : AuthSession := sessionFromParams claudeParams 0

/-- A store still holding the stale session long after its TTL. -/
def staleState : OAuthState :=
  { clients := ["claude-OiAex4vGSSA"]
    auth_sessions := [("sess-old", staleSession)]
    auth_codes := [] }

/-- Claim C6 counterexample: a pending authorization created at time 0 and
referenced by a callback at time 100000 - far past the TTL - is restored and
the flow completes with a code redirect instead of failing with
SessionNotFound; nothing ever expires the record. -/
theorem stale_session_restored :
    staleSession.created_at + SESSION_TTL < 100000 ∧
      (authorize usersScenA (some "ext-42")
          { claudeParams with oauth_session := some "sess-old" }
          staleState 100000 "sess-new" "code-1" 100600).1
        = AuthorizeOutcome.redirect "https://claude.ai/api/mcp/auth_callback"
            "code-1" (some "xyz") ∧
      (authorize usersScenA (some "ext-42")
          { claudeParams with oauth_session := some "sess-old" }
          staleState 100000 "sess-new" "code-1" 100600).1
        ≠ AuthorizeOutcome.failure OAuthError.sessionNotFound := by
  refine ⟨by decide, by decide, by decide⟩

/-- Claim C6 amended: a callback fails with SessionNotFound exactly when the
bridge-session id it references is absent from the store, and the outcome of
a callback never depends on the current time - elapsed TTL is not checked,
so stale pending records are not bounded by expiry. -/
theorem callback_checks_presence_not_ttl
    (users : List UserRecord) (ambient : Option String) (p : AuthorizeParams)
    (st : OAuthState) (sid : String) (now1 now2 : Nat)
    (freshSessionId freshCode : String) (codeExp : Nat)
    (hp : p.oauth_session = some sid) :
    (st.auth_sessions.lookup sid = none →
        authorize users ambient p st now1 freshSessionId freshCode codeExp
          = (AuthorizeOutcome.failure OAuthError.sessionNotFound, st)) ∧
      authorize users ambient p st now1 freshSessionId freshCode codeExp
        = authorize users ambient p st now2 freshSessionId freshCode codeExp := by
  constructor
  · intro habs
    simp [authorize, hp, habs]
  · simp only [authorize, hp]

/-- Claim C6 amended witness: a callback naming an id that is not in the
store, and time-independence at two concrete times. -/
theorem callback_checks_presence_not_ttl_witness :
    ({ claudeParams with oauth_session := some "sess-missing" } :
        AuthorizeParams).oauth_session = some "sess-missing" ∧
      staleState.auth_sessions.lookup "sess-missing" = none ∧
      authorize usersScenA none
          { claudeParams with oauth_session := some "sess-missing" }
          staleState 7 "sess-new" "code-1" 600
        = (AuthorizeOutcome.failure OAuthError.sessionNotFound, staleState) ∧
      authorize usersScenA none
          { claudeParams with oauth_session := some "sess-missing" }
          staleState 7 "sess-new" "code-1" 600
        = authorize usersScenA none
            { claudeParams with oauth_session := some "sess-missing" }
            staleState 900000 "sess-new" "code-1" 600 :=
  ⟨rfl, by decide,
    (callback_checks_presence_not_ttl usersScenA none
        { claudeParams with oauth_session := some "sess-missing" }
        staleState "sess-missing" 7 900000 "sess-new" "code-1" 600 rfl).1
      (by decide),
    (callback_checks_presence_not_ttl usersScenA none
        { claudeParams with oauth_session := some "sess-missing" }
        staleState "sess-missing" 7 900000 "sess-new" "code-1" 600 rfl).2⟩

/-- Claim C7: Resolve returns the internal principal id when a mapping for
the external id exists, fails with PrincipalNotFound when none does, and in
either case leaves the users table exactly as it was - no mapping is ever
created as a side effect. -/
theorem resolve_reports_or_fails (users : List UserRecord) (ext : String) :
    (∀ u, findByUserId users ext = some u →
        resolve users ext = (Except.ok u.id, users)) ∧
      (findByUserId users ext = none →
        resolve users ext = (Except.error OAuthError.principalNotFound, users)) ∧
      (resolve users ext).2 = users := by
  refine ⟨?_, ?_, ?_⟩
  · intro u hu
    simp [resolve, hu]
  · intro h
    simp [resolve, h]
  · cases h : findByUserId users ext <;> simp [resolve, h]

/-- Claim C7 witness: the Scenario A table resolves ext-42 to int-7, fails
for an unmapped id, and is unchanged. -/
theorem resolve_reports_or_fails_witness :
    resolve usersScenA "ext-42" = (Except.ok "int-7", usersScenA) ∧
      resolve usersScenA "ext-99"
        = (Except.error OAuthError.principalNotFound, usersScenA) ∧
      (resolve usersScenA "ext-42").2 = usersScenA :=
  ⟨(resolve_reports_or_fails usersScenA "ext-42").1
      { id := "int-7", user_id := "ext-42", email := "user@example.com" }
      (by decide),
    (resolve_reports_or_fails usersScenA "ext-99").2.1 (by decide),
    (resolve_reports_or_fails usersScenA "ext-42").2.2⟩

/-- Claim C8: across a complete flow - start with a registered client, then
the post-authentication callback on the stored bridge session - the state
value supplied at authorization start is echoed verbatim on the final
redirect, and a flow started without state redirects with no state at all
(the Option stays none, never the empty string). -/
theorem state_echoed_verbatim
    (users : List UserRecord) (u : UserRecord) (ext : String)
    (amb0 : Option String) (p : AuthorizeParams) (st : OAuthState)
    (now1 now2 : Nat) (sid codeA codeB sid2 : String) (ce1 ce2 : Nat)
    (hp : p.oauth_session = none)
    (hreg : p.client_id ∈ st.clients)
    (hfind : findByUserId users ext = some u) :
    (authorize users (some ext) { p with oauth_session := some sid }
        (authorize users amb0 p st now1 sid codeA ce1).2 now2 sid2 codeB ce2).1
        = AuthorizeOutcome.redirect p.redirect_uri codeB p.state ∧
      (p.state = none →
        (authorize users (some ext) { p with oauth_session := some sid }
            (authorize users amb0 p st now1 sid codeA ce1).2 now2 sid2 codeB ce2).1
          = AuthorizeOutcome.redirect p.redirect_uri codeB none) := by
  have h1 : authorize users amb0 p st now1 sid codeA ce1
      = (AuthorizeOutcome.loginPage sid,
          { st with
              auth_sessions := (sid, sessionFromParams p now1) :: st.auth_sessions }) := by
    simp [authorize, hp, hreg]
  rw [h1]
  constructor
  · simp [authorize, List.lookup_cons, hfind, sessionFromParams]
  · intro hnone
    simp [authorize, List.lookup_cons, hfind, sessionFromParams, hnone]

/-- Claim C8 witness: Scenario A round trip with state xyz. -/
theorem state_echoed_verbatim_witness :
    paramsScenA.oauth_session = none ∧
      paramsScenA.client_id ∈ stScenA.clients ∧
      findByUserId usersScenA "ext-42"
        = some { id := "int-7", user_id := "ext-42", email := "user@example.com" } ∧
      (authorize usersScenA (some "ext-42")
          { paramsScenA with oauth_session := some "sess-7" }
          (authorize usersScenA none paramsScenA stScenA 1 "sess-7" "code-a" 600).2
          2 "sess-8" "code-b" 700).1
        = AuthorizeOutcome.redirect "https://claude.ai/api/mcp/auth_callback"
            "code-b" (some "xyz") :=
  ⟨rfl, by decide, by decide,
    (state_echoed_verbatim usersScenA
        { id := "int-7", user_id := "ext-42", email := "user@example.com" }
        "ext-42" none paramsScenA stScenA 1 2 "sess-7" "code-a" "code-b" "sess-8"
        600 700 rfl (by decide) (by decide)).1⟩

/-- Claim C9: the ProtectedRoute of src/unnamed/part_002 returns exactly its
children for every children value and every authentication state - no
redirect effect is ever issued, so wrapped pages render for unauthenticated
visitors too. -/
theorem protectedRouteNuclear_renders_children {α : Type} (children : α)
    (auth : AuthContextState) :
    ProtectedRouteNuclear children auth = ([], Rendered.node children) := rfl

/-- Claim C10: in the browser, whenever the query string contains the
substring admin=true, the openmemory ProtectedRoute renders its children and
issues no redirect to /auth, for every signed-in state and every loading
state - the bypass is decided by the query string alone. -/
theorem admin_bypass_renders_children {α : Type} (children : α)
    (search : String) (user : Option String) (isLoading : Bool)
    (hq : includesAdminTrue search = true) :
    ProtectedRouteUI true search { user := user, isLoading := isLoading } children
      = ([], Rendered.node children) := by
  simp [ProtectedRouteUI, hq]

/-- Claim C10 witness: a signed-out visitor in the loading state with
admin=true in the query string gets the children and no redirect. -/
theorem admin_bypass_renders_children_witness :
    includesAdminTrue "?foo=1&admin=true" = true ∧
      ProtectedRouteUI true "?foo=1&admin=true"
          { user := none, isLoading := true } "dashboard"
        = ([], Rendered.node "dashboard") :=
  ⟨by decide,
    admin_bypass_renders_children "dashboard" "?foo=1&admin=true" none true
      (by decide)⟩

end Cortex
